import Mathlib

/-!
Verification of the resilience and dispatch core of the legacy-integration
gateway (`src/legacy-integration/src/`): error classification and response
mapping (`error_handler.py`), retry with backoff (`error_handler.py`),
the per-target circuit breaker (configured in `api_gateway.py`, state
machine per spec section 4.2), credential-scheme detection and the TTL
token cache (`auth_bridge.py`), and the batch fan-out (`api_gateway.py`).

Python strings are embedded as `String` where only their text matters and
as `List Char` where the code inspects their structure character by
character.  Wall-clock instants are `Nat` (seconds).  Python exceptions
are the inductive `PyError`; an operation that can raise returns
`Except PyError _`, and a Python-level programming fault (`TypeError`,
`AttributeError`) that the surrounding code does not catch is an
`Except String _` error.
-/

deriving instance DecidableEq for Except

namespace Gateway

/-- Error categories, from `ErrorCategory` in `error_handler.py`. -/
inductive ErrorCategory
  | authentication
  | authorization
  | validation
  | timeout
  | rateLimit
  | azureMlError
  | networkError
  | internalError
  | circuitBreaker
  | unknown
deriving DecidableEq, Repr, Fintype

/-- Severity levels, from `ErrorSeverity` in `error_handler.py`. -/
inductive ErrorSeverity
  | low
  | medium
  | high
  | critical
deriving DecidableEq, Repr, Fintype

/-- The Python exception values the core inspects, one constructor per
`isinstance` class used in `error_handler.py` (the httpx timeout
subclasses are collapsed into `httpxTimeout`, matching the tuple checks). -/
inductive PyError
  | permissionError (msg : String)
  | valueError (msg : String)
  | timeoutError (msg : String)
  | httpxTimeout (msg : String)
  | networkError (msg : String)
  | connectionError (msg : String)
  | httpStatusError (status : Nat) (msg : String)
  | circuitBreakerError (msg : String)
  | otherError (msg : String)
  | raisedNone
deriving DecidableEq, Repr

/-- Python `str(exception)`: the message text carried by the exception. -/
def pyErrorStr : PyError → String
  | .permissionError m => m
  | .valueError m => m
  | .timeoutError m => m
  | .httpxTimeout m => m
  | .networkError m => m
  | .connectionError m => m
  | .httpStatusError _ m => m
  | .circuitBreakerError m => m
  | .otherError m => m
  | .raisedNone => "None"

/-- Python `"auth" in str(exception).lower()`: `splitOn` yields at least
two pieces exactly when the pattern occurs. -/
def containsAuth (m : String) : Bool :=
  2 ≤ (m.toLower.splitOn "auth").length

/-- Classification `ErrorHandler._classify_error` from `error_handler.py`, in source
order: auth-shaped `PermissionError`/`ValueError`, timeouts, HTTP status
buckets, circuit-breaker, network, default unknown. -/
def classifyError : PyError → ErrorCategory × ErrorSeverity
  | .permissionError m =>
      if containsAuth m then (.authentication, .medium) else (.unknown, .medium)
  | .valueError m =>
      if containsAuth m then (.authentication, .medium) else (.unknown, .medium)
  | .timeoutError _ => (.timeout, .medium)
  | .httpxTimeout _ => (.timeout, .medium)
  | .httpStatusError s _ =>
      if s = 401 then (.authentication, .medium)
      else if s = 403 then (.authorization, .medium)
      else if s = 429 then (.rateLimit, .low)
      else if 400 ≤ s ∧ s < 500 then (.validation, .low)
      else if 500 ≤ s ∧ s < 600 then (.azureMlError, .high)
      else (.unknown, .medium)
  | .circuitBreakerError _ => (.circuitBreaker, .high)
  | .networkError _ => (.networkError, .medium)
  | .connectionError _ => (.networkError, .medium)
  | .otherError _ => (.unknown, .medium)
  | .raisedNone => (.unknown, .medium)

/-- The `ErrorCategory.value` strings from `error_handler.py`. -/
def categoryValue : ErrorCategory → String
  | .authentication => "authentication"
  | .authorization => "authorization"
  | .validation => "validation"
  | .timeout => "timeout"
  | .rateLimit => "rate_limit"
  | .azureMlError => "azure_ml_error"
  | .networkError => "network_error"
  | .internalError => "internal_error"
  | .circuitBreaker => "circuit_breaker"
  | .unknown => "unknown"

/-- The `ErrorSeverity.value` strings from `error_handler.py`. -/
def severityValue : ErrorSeverity → String
  | .low => "low"
  | .medium => "medium"
  | .high => "high"
  | .critical => "critical"

/-- The `status_code_map` dict in `ErrorHandler._create_error_response`. -/
def statusCodeMap : ErrorCategory → Nat
  | .authentication => 401
  | .authorization => 403
  | .validation => 400
  | .timeout => 408
  | .rateLimit => 429
  | .azureMlError => 502
  | .networkError => 503
  | .circuitBreaker => 503
  | .internalError => 500
  | .unknown => 500

/-- The `message_map` dict in `ErrorHandler._create_error_response`. -/
def messageMap : ErrorCategory → String
  | .authentication => "Authentication failed"
  | .authorization => "Access denied"
  | .validation => "Invalid request data"
  | .timeout => "Request timeout"
  | .rateLimit => "Rate limit exceeded"
  | .azureMlError => "ML service temporarily unavailable"
  | .networkError => "Network connectivity issue"
  | .circuitBreaker => "Service temporarily unavailable"
  | .internalError => "Internal server error"
  | .unknown => "An unexpected error occurred"

/-- Context `ErrorContext` from `error_handler.py` (the fields the handler reads). -/
structure ErrorContext where
  request_id : String
  correlation_id : Option String
  user_id : Option String
  endpoint : String
  method : String
  timestamp : Nat
  processing_time : Nat
  retry_count : Nat
deriving DecidableEq, Repr

/-- Response `ErrorResponse` from `error_handler.py`. -/
structure ErrorResponse where
  error_id : String
  status_code : Nat
  error_code : String
  message : String
  detail : Option String
  category : ErrorCategory
  severity : ErrorSeverity
  timestamp : Nat
  request_id : Option String
  correlation_id : Option String
  retry_after : Option Nat
  support_info : Option (List (String × String))
deriving DecidableEq, Repr

/-- Python `request_id[-8:]`: the last eight characters. -/
def lastEight (s : String) : String :=
  ⟨s.data.drop (s.data.length - 8)⟩

/-- Builder `ErrorHandler._create_error_response` from `error_handler.py`: status
and message via the maps, `error_code` as `CATEGORY_SEVERITY` upper-cased,
`detail` only for high/critical severity, `retry_after = 60` only for
rate-limit and circuit-breaker categories. -/
def createErrorResponse (now : Nat) (e : PyError) (category : ErrorCategory)
    (severity : ErrorSeverity) (ctx : ErrorContext) : ErrorResponse :=
  { error_id := "err_" ++ toString now ++ "_" ++ lastEight ctx.request_id
    status_code := statusCodeMap category
    error_code := (categoryValue category).toUpper ++ "_" ++ (severityValue severity).toUpper
    message := messageMap category
    detail := if severity = .high ∨ severity = .critical then some (pyErrorStr e) else none
    category := category
    severity := severity
    timestamp := now
    request_id := some ctx.request_id
    correlation_id := ctx.correlation_id
    retry_after :=
      if category = .rateLimit ∨ category = .circuitBreaker then some 60 else none
    support_info := some
      [("documentation", "https://docs.company.com/legacy-integration"),
       ("support_email", "ml-support@company.com"),
       ("status_page", "https://status.company.com")] }

/-- The fallback response built in the `except` branch of
`ErrorHandler.handle_prediction_error` in `error_handler.py`. -/
def fallbackErrorResponse (now : Nat) (faultMsg : String) (ctx : ErrorContext) :
    ErrorResponse :=
  { error_id := "err_" ++ toString now
    status_code := 500
    error_code := "HANDLER_ERROR"
    message := "Internal error in error handler"
    detail := some faultMsg
    category := .internalError
    severity := .critical
    timestamp := now
    request_id := some ctx.request_id
    correlation_id := ctx.correlation_id
    retry_after := none
    support_info := none }

/-- Handler `ErrorHandler.handle_prediction_error` from `error_handler.py`.  The
try-block classifies, builds the response and then awaits metrics
recording, logging and the alert hook; those awaits touch shared state and
external collaborators, so a fault arising inside the try-block is
modelled by the `internalFault` oracle (in the gateway's own `predict`
flow such a fault actually occurs: `_log_error` reads `context.endpoint`
from a `RequestContext`, which has no such attribute).  Any fault is
caught and replaced by the hardcoded fallback response. -/
def handlePredictionError (internalFault : Option String) (now : Nat)
    (e : PyError) (ctx : ErrorContext) : ErrorResponse :=
  match internalFault with
  | none =>
      let c := classifyError e
      createErrorResponse now e c.1 c.2 ctx
  | some m => fallbackErrorResponse now m ctx

/-- Policy `RetryPolicy` from `error_handler.py`; the delay parameters are
rationals standing for the Python floats. -/
structure RetryPolicy where
  max_attempts : Nat
  base_delay : ℚ
  max_delay : ℚ
  exponential_base : ℚ
  jitter : Bool

/-- The retryable-exception tuple in `RetryPolicy.should_retry`. -/
def isRetryableType : PyError → Bool
  | .httpxTimeout _ => true
  | .networkError _ => true
  | .connectionError _ => true
  | .timeoutError _ => true
  | _ => false

/-- Predicate `RetryPolicy.should_retry` from `error_handler.py`: never past
`max_attempts`, always for the retryable exception types, and for
`HTTPStatusError` only on status 429, 502, 503 or 504. -/
def shouldRetry (p : RetryPolicy) (e : PyError) (attempt : Nat) : Bool :=
  if p.max_attempts ≤ attempt then false
  else if isRetryableType e then true
  else
    match e with
    | .httpStatusError s _ => s = 429 ∨ s = 502 ∨ s = 503 ∨ s = 504
    | _ => false

/-- Delay computation `RetryPolicy.get_delay` from `error_handler.py`: cap the exponential
delay at `max_delay`, then scale by `0.5 + random() * 0.5`; the sampled
`random()` value is the explicit argument `r`. -/
def getDelay (p : RetryPolicy) (attempt : Nat) (r : ℚ) : ℚ :=
  let d := min (p.base_delay * p.exponential_base ^ attempt) p.max_delay
  if p.jitter then d * (1/2 + r * (1/2)) else d

/-- The loop of `ErrorHandler.retry_with_backoff` from `error_handler.py`.
`f i` is the outcome of attempt `i` (0-based); `rem` is the number of loop
iterations left.  On success the value is returned; on an error the loop
continues exactly when `should_retry` holds and another iteration exists,
otherwise the last exception is re-raised.  The second component is the
number of attempts actually executed beyond `attempt`th, i.e. the index
one past the last attempt run. -/
def retryRun (p : RetryPolicy) (f : Nat → Except PyError Nat) :
    Nat → Nat → Except PyError Nat × Nat
  | attempt, 0 => (.error .raisedNone, attempt)
  | attempt, r + 1 =>
      match f attempt with
      | .ok v => (.ok v, attempt + 1)
      | .error e =>
          if shouldRetry p e attempt ∧ 0 < r then
            retryRun p f (attempt + 1) r
          else
            (.error e, attempt + 1)

/-- Entry point `ErrorHandler.retry_with_backoff` from `error_handler.py`: run the
loop from attempt 0 with `max_attempts` iterations (a zero-attempt policy
re-raises the initial `last_exception = None`, modelled by `raisedNone`). -/
def retryWithBackoff (p : RetryPolicy) (f : Nat → Except PyError Nat) :
    Except PyError Nat × Nat :=
  retryRun p f 0 p.max_attempts

/-- Circuit phases, per spec section 3 (`CircuitState`). -/
inductive CircuitPhase
  | closed
  | opened
  | halfOpen
deriving DecidableEq, Repr

/-- Modelled from the spec: per-target circuit state (spec section 3).
The state machine itself lives in the third-party `circuitbreaker`
package — `src/` only configures it (`failure_threshold=5,
recovery_timeout=30` on `call_azure_ml_api`, `api_gateway.py` line 197)
— so its fields and transitions follow spec sections 3 and 4.2. -/
structure CircuitState where
  phase : CircuitPhase
  failure_count : Nat
  opened_at : Nat
deriving DecidableEq, Repr

/-- The breaker parameters configured at `api_gateway.py` line 197. -/
structure BreakerConfig where
  failure_threshold : Nat
  recovery_timeout : Nat
deriving DecidableEq, Repr

/-- Result of one dispatched call. -/
inductive DispatchResult
  | ok (v : Nat)
  | failed (e : PyError)
  | circuitOpen
deriving DecidableEq, Repr

/-- Outcome of `Dispatcher.execute`: the result, the circuit state after
the call, the number of operation attempts actually performed, and the
sequence of circuit phases traversed during the call. -/
structure DispatchOutcome where
  result : DispatchResult
  state : CircuitState
  attempts : Nat
  visited : List CircuitPhase
deriving DecidableEq, Repr

/-- Modelled from the spec: `Dispatcher.execute` (spec section 4.2) — the
composition of the circuit breaker with `retry_with_backoff`, which `src/`
delegates to the third-party `circuitbreaker` decorator.  While Open and
before `opened_at + recovery_timeout` the call fails immediately with
CircuitOpen and performs no attempt; the first call past the deadline is
admitted as the single HalfOpen trial (success resets to Closed with
`failure_count = 0`, failure reopens with `opened_at` refreshed); a live
circuit runs the retried operation, and a call that exhausts its attempts
counts as exactly one failure toward `failure_count`, opening the breaker
when the threshold is reached. -/
def dispatcherExecute (cfg : BreakerConfig) (p : RetryPolicy)
    (f : Nat → Except PyError Nat) (now : Nat) (st : CircuitState) :
    DispatchOutcome :=
  if st.phase = .opened ∧ now < st.opened_at + cfg.recovery_timeout then
    ⟨.circuitOpen, st, 0, [.opened]⟩
  else if st.phase = .opened then
    match retryWithBackoff p f with
    | (.ok v, n) => ⟨.ok v, ⟨.closed, 0, st.opened_at⟩, n, [.opened, .halfOpen, .closed]⟩
    | (.error e, n) =>
        ⟨.failed e, ⟨.opened, st.failure_count + 1, now⟩, n, [.opened, .halfOpen, .opened]⟩
  else
    match retryWithBackoff p f with
    | (.ok v, n) => ⟨.ok v, st, n, [st.phase]⟩
    | (.error e, n) =>
        if cfg.failure_threshold ≤ st.failure_count + 1 then
          ⟨.failed e, ⟨.opened, st.failure_count + 1, now⟩, n, [st.phase, .opened]⟩
        else
          ⟨.failed e, ⟨st.phase, st.failure_count + 1, st.opened_at⟩, n, [st.phase]⟩

/-- A sequence of dispatched calls, each given by its wall-clock time and
its attempt-outcome oracle, folded through the circuit state. -/
def runCalls (cfg : BreakerConfig) (p : RetryPolicy)
    (calls : List (Nat × (Nat → Except PyError Nat))) (st : CircuitState) :
    CircuitState :=
  calls.foldl (fun s c => (dispatcherExecute cfg p c.2 c.1 s).state) st

/-- The phase transitions the spec permits: Closed to Open, Open to
HalfOpen, HalfOpen to Closed or back to Open (spec section 3). -/
def allowedEdge : CircuitPhase → CircuitPhase → Prop
  | .closed, .opened => True
  | .opened, .halfOpen => True
  | .halfOpen, .closed => True
  | .halfOpen, .opened => True
  | _, _ => False

/-- An attempt oracle every invocation of which raises. -/
def alwaysFails (f : Nat → Except PyError Nat) : Prop :=
  ∀ i, ∃ e, f i = Except.error e

/-- A credential string, viewed as its sequence of characters. -/
abbrev Cred := List Char

/-- The characters of the Python literal prefix string `Bearer `. -/
def bearerTag : List Char := ['B', 'e', 'a', 'r', 'e', 'r', ' ']

/-- The characters of the Python literal prefix string `Basic `. -/
def basicTag : List Char := ['B', 'a', 's', 'i', 'c', ' ']

/-- The characters of the Python literal prefix string `Legacy `. -/
def legacyTag : List Char := ['L', 'e', 'g', 'a', 'c', 'y', ' ']

/-- Python `str.split(sep)` for a one-character separator: empty segments
are kept, and splitting the empty string yields one empty segment. -/
def splitOnChar (c : Char) : List Char → List (List Char)
  | [] => [[]]
  | x :: xs =>
      match splitOnChar c xs with
      | [] => [[]]
      | y :: ys => if x = c then [] :: y :: ys else (x :: y) :: ys

/-- The authentication schemes, from `_detect_auth_method` in
`auth_bridge.py`. -/
inductive AuthMethod
  | bearerJwt
  | apiKey
  | basicAuth
  | legacyToken
deriving DecidableEq, Repr

/-- Predicate `AuthenticationBridge._is_jwt_token` from `auth_bridge.py`:
`token.split(".")` has exactly three parts. -/
def isJwtToken (tok : Cred) : Bool :=
  (splitOnChar '.' tok).length = 3

/-- Scheme detection `AuthenticationBridge._detect_auth_method` from `auth_bridge.py`:
`Bearer `-prefixed credentials are JWTs when the part after the prefix
(`auth_token[7:]`) splits into three dot-separated segments and API keys
otherwise; `Basic ` and `Legacy ` map to their schemes; anything else
defaults to API key. -/
def detectAuthMethod (t : Cred) : AuthMethod :=
  if bearerTag.isPrefixOf t then
    if isJwtToken (t.drop 7) then .bearerJwt else .apiKey
  else if basicTag.isPrefixOf t then .basicAuth
  else if legacyTag.isPrefixOf t then .legacyToken
  else .apiKey

/-- Principal `UserInfo` from `auth_bridge.py`. -/
structure UserInfo where
  user_id : String
  username : String
  roles : List String
  permissions : List String
  expires_at : Nat
deriving DecidableEq, Repr

/-- One entry of the `TokenCache` in `auth_bridge.py`: the cached
`user_info` payload together with the `expires_at` deadline stamped by
`TokenCache.set`. -/
structure CacheEntry where
  user_info : UserInfo
  expires_at : Nat
deriving DecidableEq, Repr

/-- The `TokenCache._cache` dict, as an association list with unique keys
(maintained by `cacheSet`). -/
abbrev TokenCache := List (Cred × CacheEntry)

/-- Dict membership plus read: the binding of `k`, if present. -/
def cacheLookup : TokenCache → Cred → Option CacheEntry
  | [], _ => none
  | (k', e) :: rest, k => if k' = k then some e else cacheLookup rest k

/-- Dict `del`: drop the binding of `k`. -/
def eraseKey : TokenCache → Cred → TokenCache
  | [], _ => []
  | (k', e) :: rest, k =>
      if k' = k then eraseKey rest k else (k', e) :: eraseKey rest k

/-- Read `TokenCache.get` from `auth_bridge.py`: return the entry only while
`utcnow() < expires_at`, deleting it when the deadline has passed; the
second component is the cache after the read. -/
def cacheGet (c : TokenCache) (now : Nat) (k : Cred) :
    Option CacheEntry × TokenCache :=
  match cacheLookup c k with
  | none => (none, c)
  | some e => if now < e.expires_at then (some e, c) else (none, eraseKey c k)

/-- Write `TokenCache.set` from `auth_bridge.py`: store the payload with
deadline `utcnow() + ttl_seconds`. -/
def cacheSet (c : TokenCache) (now ttl : Nat) (k : Cred) (u : UserInfo) :
    TokenCache :=
  (k, ⟨u, now + ttl⟩) :: eraseKey c k

/-- Which internal steps one `validate_credentials` call executed. -/
structure ValidateTrace where
  ranDetection : Bool
  ranValidator : Bool
  usedCache : Bool
deriving DecidableEq, Repr

/-- Validation `AuthenticationBridge.validate_credentials` from `auth_bridge.py`:
look up the hash of the raw credential in the token cache and return the
cached Principal on an unexpired hit; otherwise detect the scheme and run
the scheme-specific validator, caching a successful result with the
configured TTL.  The four `_validate_*` paths call external collaborators
(the jwt library, the Secret Store, the static tables), so they are the
oracle `validator`; `hash` is `_generate_cache_key` (a sha256 digest in
the source), only ever applied, never inverted. -/
def validateCredentials (validator : AuthMethod → Cred → Option UserInfo)
    (hash : Cred → Cred) (ttl : Nat) (st : TokenCache) (now : Nat)
    (tok : Cred) : Option UserInfo × TokenCache × ValidateTrace :=
  match cacheGet st now (hash tok) with
  | (some e, st') => (some e.user_info, st', ⟨false, false, true⟩)
  | (none, st') =>
      match validator (detectAuthMethod tok) tok with
      | some u => (some u, cacheSet st' now ttl (hash tok) u, ⟨true, true, false⟩)
      | none => (none, st', ⟨true, true, false⟩)

/-- Response model `LegacyPredictionResponse` from `api_gateway.py` (a pydantic model;
the prediction payload is represented by an integer). -/
structure LegacyResponse where
  prediction : Int
  confidence : Option Int
  model_version : Option String
  request_id : String
  timestamp : Nat
deriving DecidableEq, Repr

/-- Python subscripting `error_response["status_code"]` as written at
`api_gateway.py` lines 277 and 333: `ErrorResponse` is a plain
`@dataclass` with no `__getitem__`, so the interpreter raises
`TypeError: 'ErrorResponse' object is not subscriptable`. -/
def dataclassGetItem (_ : ErrorResponse) (_ : String) : Except String Nat :=
  Except.error "TypeError: ErrorResponse object is not subscriptable"

/-- Python `response.get("error")` as written at `api_gateway.py` lines
343-344: pydantic models define no `get` method, so the interpreter
raises `AttributeError`. -/
def pydanticGet (_ : LegacyResponse) (_ : String) :
    Except String (Option Bool) :=
  Except.error "AttributeError: LegacyPredictionResponse object has no attribute get"

/-- One element of `processed_responses` in `batch_predict`: either the
worker's `LegacyPredictionResponse` or the error dict built for a failed
sub-request (its `status_code`, `detail` and `request_index` fields). -/
inductive BatchItem
  | success (r : LegacyResponse)
  | errorItem (status : Nat) (detail : Option String) (idx : Nat)
deriving DecidableEq, Repr

/-- Read `r.get("error")` over a `processed_responses` element: on the error
dict it reads the stored `True`; on a success element it is the faulting
pydantic attribute access. -/
def itemIsError : BatchItem → Except String Bool
  | .success r => (pydanticGet r "error").map (fun o => o.getD false)
  | .errorItem _ _ _ => .ok true

/-- The `successful_predictions` comprehension of `batch_predict`. -/
def countSuccesses : List BatchItem → Except String Nat
  | [] => .ok 0
  | i :: rest => do
      let b ← itemIsError i
      let n ← countSuccesses rest
      pure (if b then n else n + 1)

/-- The `failed_predictions` comprehension of `batch_predict`. -/
def countFailures : List BatchItem → Except String Nat
  | [] => .ok 0
  | i :: rest => do
      let b ← itemIsError i
      let n ← countFailures rest
      pure (if b then n + 1 else n)

/-- The `for i, response in enumerate(responses)` loop of `batch_predict`
(`api_gateway.py` lines 327-338): successes are kept in order; an
exception is passed to `handle_prediction_error` and the resulting
dataclass is then subscripted, which raises and aborts the loop.  `hf` is
the internal-fault oracle of `handlePredictionError`. -/
def processBatchGo (hf : Option String) (now : Nat) (ctx : ErrorContext) :
    Nat → List (Except PyError LegacyResponse) → Except String (List BatchItem)
  | _, [] => .ok []
  | i, .ok r :: rest =>
      (processBatchGo hf now ctx (i + 1) rest).map (fun l => .success r :: l)
  | i, .error e :: rest =>
      let resp := handlePredictionError hf now e ctx
      match dataclassGetItem resp "status_code" with
      | .error m => .error m
      | .ok s =>
          (processBatchGo hf now ctx (i + 1) rest).map
            (fun l => .errorItem s resp.detail i :: l)

/-- The aggregate dict returned by `batch_predict` on success. -/
structure BatchSummary where
  batch_id : String
  total_requests : Nat
  successful_predictions : Nat
  failed_predictions : Nat
  responses : List BatchItem
deriving DecidableEq, Repr

/-- What the `/batch-predict` endpoint hands to the HTTP layer. -/
inductive BatchOutcome
  | ok (s : BatchSummary)
  | httpError (status : Nat) (detail : String)
deriving DecidableEq, Repr

/-- The try-block of `batch_predict`: per-element outcomes (`responses`
from the ordered `asyncio.gather`), then the aggregate counts. -/
def batchPredictBody (hf : Option String) (now : Nat) (ctx : ErrorContext)
    (batchId : String) (responses : List (Except PyError LegacyResponse)) :
    Except String BatchSummary := do
  let items ← processBatchGo hf now ctx 0 responses
  let succ ← countSuccesses items
  let fail ← countFailures items
  pure ⟨batchId, responses.length, succ, fail, items⟩

/-- Endpoint `batch_predict` from `api_gateway.py`: any exception escaping the
try-block is converted to `HTTPException(500, "Batch prediction failed")`. -/
def batchPredict (hf : Option String) (now : Nat) (ctx : ErrorContext)
    (batchId : String) (responses : List (Except PyError LegacyResponse)) :
    BatchOutcome :=
  match batchPredictBody hf now ctx batchId responses with
  | .ok s => .ok s
  | .error _ => .httpError 500 "Batch prediction failed"

/-- What leaves the `/predict` endpoint on a dispatch failure: either the
deliberate `HTTPException` relay, or an exception the endpoint itself
raised and did not catch (surfaced raw to the server layer). -/
inductive PredictOutcome
  | httpException (status : Nat) (detail : Option String)
  | rawError (msg : String)
deriving DecidableEq, Repr

/-- The `except Exception` branch of `predict` (`api_gateway.py` lines
273-279): classify through `handle_prediction_error`, then relay
`error_response["status_code"]` / `error_response["detail"]` — a
subscript of the `ErrorResponse` dataclass. -/
def predictErrorPath (hf : Option String) (now : Nat) (e : PyError)
    (ctx : ErrorContext) : PredictOutcome :=
  let resp := handlePredictionError hf now e ctx
  match dataclassGetItem resp "status_code" with
  | .ok s => .httpException s resp.detail
  | .error m => .rawError m

/-- Metrics `ErrorMetrics` from `error_handler.py`; the two Python dicts with
on-demand zero initialisation are total functions defaulting to 0. -/
structure ErrorMetrics where
  total_errors : Nat
  errors_by_category : ErrorCategory → Nat
  errors_by_severity : ErrorSeverity → Nat
  last_error_time : Option Nat
  error_rate_1min : Nat

/-- Fresh `ErrorMetrics()` with its dataclass defaults. -/
def initialErrorMetrics : ErrorMetrics :=
  ⟨0, fun _ => 0, fun _ => 0, none, 0⟩

/-- Recorder `ErrorHandler._record_error_metrics` from `error_handler.py`: bump
the total and the per-category and per-severity counters, stamp the last
error time, and recompute `error_rate_1min = min(total_errors, 60)`. -/
def recordErrorMetrics (m : ErrorMetrics) (now : Nat) (c : ErrorCategory)
    (s : ErrorSeverity) : ErrorMetrics :=
  ⟨m.total_errors + 1,
   fun c' => if c' = c then m.errors_by_category c' + 1 else m.errors_by_category c',
   fun s' => if s' = s then m.errors_by_severity s' + 1 else m.errors_by_severity s',
   some now,
   min (m.total_errors + 1) 60⟩

/-- The metrics after a sequence of recorded errors, starting from the
fresh `ErrorMetrics()` of `ErrorHandler.__init__`. -/
def runMetrics (events : List (Nat × ErrorCategory × ErrorSeverity)) :
    ErrorMetrics :=
  events.foldl (fun m ev => recordErrorMetrics m ev.1 ev.2.1 ev.2.2)
    initialErrorMetrics

/-- A concrete request context, for evaluating the endpoints. -/
def sampleCtx : ErrorContext :=
  ⟨"req_1730000000123", some "corr-1", some "u1", "/predict", "POST", 0, 1, 0⟩

/-- A concrete successful worker response, for evaluating the batch path. -/
def sampleResp : LegacyResponse := ⟨1, none, none, "req_b", 0⟩

/-- The fault `handle_prediction_error` hits in the gateway flow: `predict`
and `batch_predict` pass a `RequestContext`, and `_log_error` reads
`context.endpoint`, which that class does not define. -/
def sampleFault : String := "AttributeError: RequestContext object has no attribute endpoint"

/-- A concrete Principal, for evaluating the authentication bridge. -/
def sampleUser : UserInfo := ⟨"u1", "u1", ["user"], ["predict"], 100⟩

/-- A concrete scheme-validation oracle: accepts the credential `k`. -/
def sampleValidator : AuthMethod → Cred → Option UserInfo :=
  fun _ c => if c = ['k'] then some sampleUser else none

/-- An attempt oracle that always raises a connection failure. -/
def sampleFailOracle : Nat → Except PyError Nat :=
  fun _ => .error (.connectionError "Connection failed")

/-- An attempt oracle that fails retryably once, then succeeds with 7. -/
def sampleMixOracle : Nat → Except PyError Nat :=
  fun i => if i = 0 then .error (.httpxTimeout "Timeout") else .ok 7


theorem bearerTag_not_prefix_basic (v : Cred) :
    bearerTag.isPrefixOf (basicTag ++ v) = false := by
  simp [bearerTag, basicTag, List.isPrefixOf]

theorem bearerTag_not_prefix_legacy (v : Cred) :
    bearerTag.isPrefixOf (legacyTag ++ v) = false := by
  simp [bearerTag, legacyTag, List.isPrefixOf]

theorem basicTag_not_prefix_legacy (v : Cred) :
    basicTag.isPrefixOf (legacyTag ++ v) = false := by
  simp [basicTag, legacyTag, List.isPrefixOf]

theorem tag_prefix_self (t v : Cred) : t.isPrefixOf (t ++ v) = true := by
  rw [List.isPrefixOf_iff_prefix]; exact List.prefix_append _ _

/-- Claim C5: scheme detection classifies `Bearer v` as BearerJWT exactly
when `v` has three dot-separated segments and as ApiKey otherwise,
`Basic v` as Basic, `Legacy v` as LegacyToken, and everything without one
of the three prefixes as ApiKey. -/
theorem c5_detect_auth_method_cases :
    (∀ v : Cred, detectAuthMethod (bearerTag ++ v)
        = if (splitOnChar '.' v).length = 3 then AuthMethod.bearerJwt
          else AuthMethod.apiKey) ∧
    (∀ v : Cred, detectAuthMethod (basicTag ++ v) = AuthMethod.basicAuth) ∧
    (∀ v : Cred, detectAuthMethod (legacyTag ++ v) = AuthMethod.legacyToken) ∧
    (∀ t : Cred, bearerTag.isPrefixOf t = false → basicTag.isPrefixOf t = false →
      legacyTag.isPrefixOf t = false → detectAuthMethod t = AuthMethod.apiKey) := by
  refine ⟨?_, ?_, ?_, ?_⟩
  · intro v
    have hd : (bearerTag ++ v).drop 7 = v := by
      have : bearerTag.length = 7 := by decide
      rw [← this, List.drop_left]
    rw [detectAuthMethod, if_pos]
    · rw [hd, isJwtToken]
      split <;> simp_all
    · simp [tag_prefix_self]
  · intro v
    rw [detectAuthMethod, if_neg, if_pos]
    · simp [tag_prefix_self]
    · simp [bearerTag_not_prefix_basic]
  · intro v
    rw [detectAuthMethod, if_neg, if_neg, if_pos]
    · simp [tag_prefix_self]
    · simp [basicTag_not_prefix_legacy]
    · simp [bearerTag_not_prefix_legacy]
  · intro t h1 h2 h3
    rw [detectAuthMethod, if_neg, if_neg, if_neg] <;> simp [h1, h2, h3]

/-- Witness for C5 at concrete credentials. -/
theorem c5_witness :
    detectAuthMethod ("Bearer a.b.c").data = AuthMethod.bearerJwt ∧
    detectAuthMethod ("Bearer apikey123").data = AuthMethod.apiKey ∧
    detectAuthMethod ("Basic dXNlcjpwdw==").data = AuthMethod.basicAuth ∧
    detectAuthMethod ("Legacy u:1:s").data = AuthMethod.legacyToken ∧
    detectAuthMethod ("sometoken").data = AuthMethod.apiKey := by
  have h := c5_detect_auth_method_cases
  refine ⟨?_, ?_, ?_, ?_, ?_⟩
  · have e : ("Bearer a.b.c").data = bearerTag ++ ("a.b.c").data := by decide
    rw [e, h.1]; decide
  · have e : ("Bearer apikey123").data = bearerTag ++ ("apikey123").data := by decide
    rw [e, h.1]; decide
  · have e : ("Basic dXNlcjpwdw==").data = basicTag ++ ("dXNlcjpwdw==").data := by decide
    rw [e, h.2.1]
  · have e : ("Legacy u:1:s").data = legacyTag ++ ("u:1:s").data := by decide
    rw [e, h.2.2.1]
  · exact h.2.2.2 ("sometoken").data (by decide) (by decide) (by decide)

theorem cacheLookup_eraseKey (c : TokenCache) (k : Cred) :
    cacheLookup (eraseKey c k) k = none := by
  induction c with
  | nil => rfl
  | cons p rest ih =>
      obtain ⟨k', e⟩ := p
      by_cases hk : k' = k
      · simp [eraseKey, hk, ih]
      · simp [eraseKey, cacheLookup, hk, ih]

/-- Claim C7: `TokenCache.get` returns an entry exactly when it is present
and its deadline is still in the future; an expired entry is deleted by
the read; and validating a credential whose cached entry has expired
re-runs scheme detection and the scheme-specific validator. -/
theorem c7_token_cache_expiry :
    (∀ (c : TokenCache) (now : Nat) (k : Cred) (e : CacheEntry),
       (cacheGet c now k).1 = some e ↔
         cacheLookup c k = some e ∧ now < e.expires_at) ∧
    (∀ (c : TokenCache) (now : Nat) (k : Cred) (e : CacheEntry),
       cacheLookup c k = some e → e.expires_at ≤ now →
         (cacheGet c now k).2 = eraseKey c k ∧
         cacheLookup (cacheGet c now k).2 k = none) ∧
    (∀ (validator : AuthMethod → Cred → Option UserInfo) (hash : Cred → Cred)
       (ttl : Nat) (st : TokenCache) (now : Nat) (tok : Cred) (e : CacheEntry),
       cacheLookup st (hash tok) = some e → e.expires_at ≤ now →
         (validateCredentials validator hash ttl st now tok).2.2.ranDetection = true ∧
         (validateCredentials validator hash ttl st now tok).2.2.ranValidator = true) := by
  refine ⟨?_, ?_, ?_⟩
  · intro c now k e
    cases hl : cacheLookup c k with
    | none => simp [cacheGet, hl]
    | some e' =>
        by_cases ht : now < e'.expires_at
        · simp [cacheGet, hl, ht]
          rintro rfl
          exact ht
        · simp [cacheGet, hl, ht]
          rintro rfl
          omega
  · intro c now k e hl hexp
    have hnl : ¬ now < e.expires_at := by omega
    simp [cacheGet, hl, hnl, cacheLookup_eraseKey]
  · intro validator hash ttl st now tok e hl hexp
    have hnl : ¬ now < e.expires_at := by omega
    cases hv : validator (detectAuthMethod tok) tok <;>
      simp [validateCredentials, cacheGet, hl, hnl, hv]

/-- Witness for C7 at a concrete cache holding an entry with deadline 5,
read at times 3 and 7. -/
theorem c7_witness :
    (cacheGet [(['k'], ⟨sampleUser, 5⟩)] 7 ['k']).2 = [] ∧
    (cacheGet [(['k'], ⟨sampleUser, 5⟩)] 3 ['k']).1 = some ⟨sampleUser, 5⟩ ∧
    (validateCredentials sampleValidator id 10 [(['k'], ⟨sampleUser, 5⟩)] 7
        ['k']).2.2.ranValidator = true := by
  have h := c7_token_cache_expiry
  refine ⟨?_, ?_, ?_⟩
  · exact (h.2.1 [(['k'], ⟨sampleUser, 5⟩)] 7 ['k'] ⟨sampleUser, 5⟩ (by decide)
      (by decide)).1
  · exact (h.1 [(['k'], ⟨sampleUser, 5⟩)] 3 ['k'] ⟨sampleUser, 5⟩).mpr
      ⟨by decide, by decide⟩
  · exact (h.2.2 sampleValidator id 10 [(['k'], ⟨sampleUser, 5⟩)] 7 ['k']
      ⟨sampleUser, 5⟩ (by decide) (by decide)).2

/-- Claim C6: a credential that validates successfully from a state where
it is not yet cached is, on a second call strictly before the TTL
deadline, answered from the cache: the identical Principal is returned,
the cache state is untouched, and neither scheme detection nor any
scheme-specific validator runs. -/
theorem c6_cached_revalidation
    (validator : AuthMethod → Cred → Option UserInfo) (hash : Cred → Cred)
    (ttl : Nat) (st : TokenCache) (t t' : Nat) (tok : Cred) (u : UserInfo)
    (st₁ : TokenCache) (tr₁ : ValidateTrace)
    (hfirst : validateCredentials validator hash ttl st t tok = (some u, st₁, tr₁))
    (hmiss : cacheLookup st (hash tok) = none)
    (hlt : t' < t + ttl) :
    validateCredentials validator hash ttl st₁ t' tok
      = (some u, st₁, ⟨false, false, true⟩) := by
  simp only [validateCredentials, cacheGet, hmiss] at hfirst
  cases hv : validator (detectAuthMethod tok) tok with
  | none => rw [hv] at hfirst; simp at hfirst
  | some u' =>
      rw [hv] at hfirst
      simp only [Prod.mk.injEq, Option.some.injEq] at hfirst
      obtain ⟨rfl, rfl, -⟩ := hfirst
      simp [validateCredentials, cacheGet, cacheSet, cacheLookup, hlt]

/-- Witness for C6: credential `k` validated at time 0 with TTL 10, then
again at time 5. -/
theorem c6_witness :
    validateCredentials sampleValidator id 10 [(['k'], ⟨sampleUser, 10⟩)] 5 ['k']
      = (some sampleUser, [(['k'], ⟨sampleUser, 10⟩)], ⟨false, false, true⟩) :=
  c6_cached_revalidation sampleValidator id 10 [] 0 5 ['k'] sampleUser
    [(['k'], ⟨sampleUser, 10⟩)] ⟨true, true, false⟩ (by decide) (by decide)
    (by decide)

/-- Claim C8: an upstream HTTP 429 classifies as RateLimit/Low and maps to
status 429 with `retry_after = 60`; an upstream HTTP 503 classifies as
UpstreamError(AZURE_ML_ERROR)/High and maps to status 502 with `detail`
carrying the raw error text. -/
theorem c8_http_status_classification (m : String) (ctx : ErrorContext) (now : Nat) :
    classifyError (PyError.httpStatusError 429 m)
      = (ErrorCategory.rateLimit, ErrorSeverity.low) ∧
    (handlePredictionError none now (PyError.httpStatusError 429 m) ctx).status_code = 429 ∧
    (handlePredictionError none now (PyError.httpStatusError 429 m) ctx).retry_after = some 60 ∧
    (handlePredictionError none now (PyError.httpStatusError 429 m) ctx).detail = none ∧
    classifyError (PyError.httpStatusError 503 m)
      = (ErrorCategory.azureMlError, ErrorSeverity.high) ∧
    (handlePredictionError none now (PyError.httpStatusError 503 m) ctx).status_code = 502 ∧
    (handlePredictionError none now (PyError.httpStatusError 503 m) ctx).detail = some m ∧
    (handlePredictionError none now (PyError.httpStatusError 503 m) ctx).retry_after = none := by
  have h429 : classifyError (PyError.httpStatusError 429 m)
      = (ErrorCategory.rateLimit, ErrorSeverity.low) := by
    simp [classifyError]
  have h503 : classifyError (PyError.httpStatusError 503 m)
      = (ErrorCategory.azureMlError, ErrorSeverity.high) := by
    simp [classifyError]
  refine ⟨h429, ?_, ?_, ?_, h503, ?_, ?_, ?_⟩ <;>
    simp [handlePredictionError, h429, h503, createErrorResponse, statusCodeMap,
      pyErrorStr]

/-- Claim C9: with jitter enabled the computed delay is the capped
exponential `min(base_delay * exponential_base ^ attempt, max_delay)`
scaled by the factor `0.5 + r * 0.5`, which lies in `[1/2, 1]` for a
`random()` sample `r` in `[0, 1)`; hence the delay never exceeds
`max_delay` and is at least half the capped exponential value. -/
theorem c9_retry_delay_bounds (p : RetryPolicy) (attempt : Nat) (r : ℚ)
    (hj : p.jitter = true) (hr0 : 0 ≤ r) (hr1 : r < 1)
    (hb : 0 ≤ p.base_delay) (he : 0 ≤ p.exponential_base)
    (hm : 0 ≤ p.max_delay) :
    getDelay p attempt r
      = min (p.base_delay * p.exponential_base ^ attempt) p.max_delay
          * (1/2 + r * (1/2)) ∧
    1/2 ≤ 1/2 + r * (1/2) ∧
    1/2 + r * (1/2) ≤ 1 ∧
    getDelay p attempt r ≤ p.max_delay ∧
    min (p.base_delay * p.exponential_base ^ attempt) p.max_delay * (1/2)
      ≤ getDelay p attempt r := by
  have hfac0 : (1/2 : ℚ) ≤ 1/2 + r * (1/2) := by linarith
  have hfac1 : (1/2 : ℚ) + r * (1/2) ≤ 1 := by linarith
  have heq : getDelay p attempt r
      = min (p.base_delay * p.exponential_base ^ attempt) p.max_delay
          * (1/2 + r * (1/2)) := by
    simp [getDelay, hj]
  have hd0 : 0 ≤ min (p.base_delay * p.exponential_base ^ attempt) p.max_delay :=
    le_min (mul_nonneg hb (pow_nonneg he _)) hm
  refine ⟨heq, hfac0, hfac1, ?_, ?_⟩
  · rw [heq]
    have h1 : min (p.base_delay * p.exponential_base ^ attempt) p.max_delay
          * (1/2 + r * (1/2))
        ≤ min (p.base_delay * p.exponential_base ^ attempt) p.max_delay * 1 :=
      mul_le_mul_of_nonneg_left hfac1 hd0
    have h2 : min (p.base_delay * p.exponential_base ^ attempt) p.max_delay
        ≤ p.max_delay := min_le_right _ _
    rw [mul_one] at h1
    linarith
  · rw [heq]
    exact mul_le_mul_of_nonneg_left hfac0 hd0

/-- Witness for C9 with the default policy values and `r = 1/3`. -/
theorem c9_witness :
    getDelay ⟨3, 1, 60, 2, true⟩ 2 (1/3) ≤ (60 : ℚ) ∧
    min ((1 : ℚ) * 2 ^ 2) 60 * (1/2) ≤ getDelay ⟨3, 1, 60, 2, true⟩ 2 (1/3) := by
  have h := c9_retry_delay_bounds ⟨3, 1, 60, 2, true⟩ 2 (1/3) rfl (by norm_num)
    (by norm_num) (by norm_num) (by norm_num) (by norm_num)
  exact ⟨h.2.2.2.1, h.2.2.2.2⟩

theorem metrics_sum_bump {β : Type} [Fintype β] [DecidableEq β]
    (f : β → Nat) (b : β) :
    (∑ x, (if x = b then f x + 1 else f x)) = (∑ x, f x) + 1 := by
  have h : ∀ x : β, (if x = b then f x + 1 else f x)
      = f x + (if x = b then 1 else 0) := by
    intro x; split <;> simp
  simp only [h]
  rw [Finset.sum_add_distrib]
  simp [Finset.sum_ite_eq']

theorem metrics_consistent_aux (events : List (Nat × ErrorCategory × ErrorSeverity)) :
    ∀ m : ErrorMetrics,
      m.total_errors = (∑ c, m.errors_by_category c) →
      m.total_errors = (∑ s, m.errors_by_severity s) →
      (events.foldl (fun m ev => recordErrorMetrics m ev.1 ev.2.1 ev.2.2) m).total_errors
          = (∑ c, (events.foldl (fun m ev => recordErrorMetrics m ev.1 ev.2.1 ev.2.2) m).errors_by_category c) ∧
      (events.foldl (fun m ev => recordErrorMetrics m ev.1 ev.2.1 ev.2.2) m).total_errors
          = (∑ s, (events.foldl (fun m ev => recordErrorMetrics m ev.1 ev.2.1 ev.2.2) m).errors_by_severity s) := by
  induction events with
  | nil => intro m hc hs; exact ⟨hc, hs⟩
  | cons ev rest ih =>
      intro m hc hs
      apply ih
      · simp [recordErrorMetrics, metrics_sum_bump, hc]
      · simp [recordErrorMetrics, metrics_sum_bump, hs]

/-- Claim C10: after any sequence of recorded errors the metrics are
consistent — the total equals the sum of the per-category counters and
the sum of the per-severity counters — and one recording step leaves
every counter (total, per category, per severity) non-decreasing; all
counters are naturals, hence non-negative. -/
theorem c10_error_metrics_consistency :
    (∀ events : List (Nat × ErrorCategory × ErrorSeverity),
       (runMetrics events).total_errors
           = (∑ c, (runMetrics events).errors_by_category c) ∧
       (runMetrics events).total_errors
           = (∑ s, (runMetrics events).errors_by_severity s)) ∧
    (∀ (m : ErrorMetrics) (now : Nat) (c : ErrorCategory) (s : ErrorSeverity),
       m.total_errors ≤ (recordErrorMetrics m now c s).total_errors ∧
       (∀ c', m.errors_by_category c'
           ≤ (recordErrorMetrics m now c s).errors_by_category c') ∧
       (∀ s', m.errors_by_severity s'
           ≤ (recordErrorMetrics m now c s).errors_by_severity s')) := by
  constructor
  · intro events
    exact metrics_consistent_aux events initialErrorMetrics (by simp [initialErrorMetrics])
      (by simp [initialErrorMetrics])
  · intro m now c s
    refine ⟨by simp [recordErrorMetrics], ?_, ?_⟩
    · intro c'
      simp only [recordErrorMetrics]
      split <;> omega
    · intro s'
      simp only [recordErrorMetrics]
      split <;> omega

/-- Claim C2 (counter-evidence): on the claim's own scenario — five batch
requests of which the workers at indices 1 and 3 fail — `batch_predict`
does not return five ordered entries with counts 3/2: building the error
dict subscripts the `ErrorResponse` dataclass, the resulting `TypeError`
escapes the processing loop, and the endpoint answers a blanket
`HTTPException(500, "Batch prediction failed")`.  (With no failed element
the `.get` attribute error in the counting comprehensions faults instead,
so every non-empty batch is affected.) -/
theorem c2_batch_predict_blanket_500 :
    batchPredict (some sampleFault) 0 sampleCtx "req_batch"
        [.ok sampleResp, .error (.httpStatusError 503 "Service Unavailable"),
         .ok sampleResp, .error (.timeoutError "Request timeout"), .ok sampleResp]
      = .httpError 500 "Batch prediction failed" ∧
    batchPredict none 0 sampleCtx "req_batch"
        [.ok sampleResp, .error (.httpStatusError 503 "Service Unavailable"),
         .ok sampleResp, .error (.timeoutError "Request timeout"), .ok sampleResp]
      = .httpError 500 "Batch prediction failed" ∧
    batchPredict (some sampleFault) 0 sampleCtx "req_batch"
        [.ok sampleResp, .ok sampleResp]
      = .httpError 500 "Batch prediction failed" := by
  refine ⟨rfl, rfl, rfl⟩

/-- Claim C3 (counter-evidence and the working fallback half): for a
dispatch failure on `/predict` — upstream HTTP 503 — the classifier side
does produce the structured 502 response, and a fault inside the handler
is replaced by the hardcoded InternalError/Critical fallback; but the
endpoint's relay subscripts the `ErrorResponse` dataclass, so what leaves
`predict` is a raw `TypeError`, not the structured response. -/
theorem c3_raw_type_error_escapes :
    predictErrorPath (some sampleFault) 0
        (.httpStatusError 503 "Service Unavailable") sampleCtx
      = .rawError "TypeError: ErrorResponse object is not subscriptable" ∧
    predictErrorPath none 0 (.httpStatusError 503 "Service Unavailable") sampleCtx
      = .rawError "TypeError: ErrorResponse object is not subscriptable" ∧
    (handlePredictionError none 0 (.httpStatusError 503 "Service Unavailable")
        sampleCtx).status_code = 502 ∧
    (handlePredictionError (some sampleFault) 0
        (.httpStatusError 503 "Service Unavailable") sampleCtx).category
      = ErrorCategory.internalError ∧
    (handlePredictionError (some sampleFault) 0
        (.httpStatusError 503 "Service Unavailable") sampleCtx).severity
      = ErrorSeverity.critical ∧
    (handlePredictionError (some sampleFault) 0
        (.httpStatusError 503 "Service Unavailable") sampleCtx).status_code = 500 := by
  exact ⟨rfl, rfl, rfl, rfl, rfl, rfl⟩

theorem retryRun_attempts_ge (p : RetryPolicy) (f : Nat → Except PyError Nat) :
    ∀ r a, 1 ≤ r → a + 1 ≤ (retryRun p f a r).2 := by
  intro r
  induction r with
  | zero => intro a h; omega
  | succ r ih =>
      intro a _
      rw [retryRun]
      cases f a with
      | ok v => simp
      | error e =>
          simp only
          split
          · rename_i hcond
            have := ih (a + 1) hcond.2
            omega
          · simp

theorem retryRun_all_fail (p : RetryPolicy) (f : Nat → Except PyError Nat) :
    ∀ r a, (∀ i, i < a + r → ∃ e, f i = Except.error e) → 1 ≤ r →
      ∃ e, (retryRun p f a r).1 = Except.error e := by
  intro r
  induction r with
  | zero => intro a _ h; omega
  | succ r ih =>
      intro a hfail _
      obtain ⟨e, he⟩ := hfail a (by omega)
      rw [retryRun, he]
      simp only
      split
      · rename_i hcond
        exact ih (a + 1) (fun i hi => hfail i (by omega)) hcond.2
      · exact ⟨e, rfl⟩

theorem retryRun_success (p : RetryPolicy) (f : Nat → Except PyError Nat) :
    ∀ r a k v, a ≤ k → k < a + r → f k = Except.ok v →
      (∀ i, a ≤ i → i < k → ∃ e, f i = Except.error e ∧ shouldRetry p e i = true) →
      retryRun p f a r = (Except.ok v, k + 1) := by
  intro r
  induction r with
  | zero => intro a k v h1 h2 _ _; omega
  | succ r ih =>
      intro a k v hak hkr hk hfail
      rcases Nat.eq_or_lt_of_le hak with rfl | hlt
      · rw [retryRun, hk]
      · obtain ⟨e, he, hsr⟩ := hfail a le_rfl hlt
        rw [retryRun, he]
        simp only
        rw [if_pos ⟨hsr, by omega⟩]
        exact ih (a + 1) k v (by omega) (by omega) hk
          (fun i hi hik => hfail i (by omega) hik)

/-- Claim C1: from a live (Closed) circuit, a dispatched call whose
operation raises on every attempt increments `failure_count` by exactly
one — not once per attempt — while a call that fails retryably on the
first attempts and succeeds on attempt `k < max_attempts` returns the
success value and leaves `failure_count` exactly unchanged. -/
theorem c1_retry_failure_counting (cfg : BreakerConfig) (p : RetryPolicy)
    (f : Nat → Except PyError Nat) (now : Nat) (st : CircuitState)
    (hmax : 1 ≤ p.max_attempts) (hph : st.phase = CircuitPhase.closed) :
    (alwaysFails f →
       (dispatcherExecute cfg p f now st).state.failure_count
         = st.failure_count + 1) ∧
    (∀ k v, k < p.max_attempts → f k = Except.ok v →
       (∀ i, i < k → ∃ e, f i = Except.error e ∧ shouldRetry p e i = true) →
       (dispatcherExecute cfg p f now st).result = DispatchResult.ok v ∧
       (dispatcherExecute cfg p f now st).state.failure_count
         = st.failure_count) := by
  constructor
  · intro hfail
    obtain ⟨e, he⟩ := retryRun_all_fail p f p.max_attempts 0
      (fun i _ => hfail i) hmax
    have hwb : (retryWithBackoff p f).1 = Except.error e := he
    rcases hpair : retryWithBackoff p f with ⟨res, n⟩
    rw [hpair] at hwb
    simp only at hwb
    subst hwb
    simp only [dispatcherExecute, hph]
    rw [if_neg (by simp), if_neg (by simp), hpair]
    simp only
    split <;> rfl
  · intro k v hk hok hfail
    have hrun : retryWithBackoff p f = (Except.ok v, k + 1) :=
      retryRun_success p f p.max_attempts 0 k v (by omega) (by omega) hok
        (fun i _ hik => hfail i hik)
    simp only [dispatcherExecute, hph]
    rw [if_neg (by simp), if_neg (by simp), hrun]
    exact ⟨rfl, rfl⟩

/-- Witness for C1: threshold-5 breaker, two-attempt policy, a closed
circuit with two prior failures; an always-failing call moves the count
to 3, a fail-then-succeed call returns 7 and leaves it at 2. -/
theorem c1_witness :
    (dispatcherExecute ⟨5, 30⟩ ⟨2, 1, 60, 2, true⟩ sampleFailOracle 9
        ⟨CircuitPhase.closed, 2, 0⟩).state.failure_count = 3 ∧
    (dispatcherExecute ⟨5, 30⟩ ⟨2, 1, 60, 2, true⟩ sampleMixOracle 9
        ⟨CircuitPhase.closed, 2, 0⟩).result = DispatchResult.ok 7 ∧
    (dispatcherExecute ⟨5, 30⟩ ⟨2, 1, 60, 2, true⟩ sampleMixOracle 9
        ⟨CircuitPhase.closed, 2, 0⟩).state.failure_count = 2 := by
  have hA := (c1_retry_failure_counting ⟨5, 30⟩ ⟨2, 1, 60, 2, true⟩
    sampleFailOracle 9 ⟨CircuitPhase.closed, 2, 0⟩ (by decide) rfl).1
    (fun i => ⟨.connectionError "Connection failed", rfl⟩)
  have hB := (c1_retry_failure_counting ⟨5, 30⟩ ⟨2, 1, 60, 2, true⟩
    sampleMixOracle 9 ⟨CircuitPhase.closed, 2, 0⟩ (by decide) rfl).2 1 7
    (by decide) rfl
    (by
      intro i hi
      interval_cases i
      exact ⟨.httpxTimeout "Timeout", rfl, by decide⟩)
  exact ⟨hA, hB.1, hB.2⟩

theorem dispatch_open_blocked (cfg : BreakerConfig) (p : RetryPolicy)
    (f : Nat → Except PyError Nat) (now : Nat) (st : CircuitState)
    (h1 : st.phase = CircuitPhase.opened)
    (h2 : now < st.opened_at + cfg.recovery_timeout) :
    dispatcherExecute cfg p f now st
      = ⟨DispatchResult.circuitOpen, st, 0, [CircuitPhase.opened]⟩ := by
  simp only [dispatcherExecute]
  rw [if_pos ⟨h1, h2⟩]

theorem dispatch_closed_fail_lt (cfg : BreakerConfig) (p : RetryPolicy)
    (f : Nat → Except PyError Nat) (now : Nat) (st : CircuitState)
    (hmax : 1 ≤ p.max_attempts) (hph : st.phase = CircuitPhase.closed)
    (hf : alwaysFails f) (hth : st.failure_count + 1 < cfg.failure_threshold) :
    (dispatcherExecute cfg p f now st).state
      = ⟨CircuitPhase.closed, st.failure_count + 1, st.opened_at⟩ := by
  obtain ⟨e, he⟩ := retryRun_all_fail p f p.max_attempts 0 (fun i _ => hf i) hmax
  have hwb : (retryWithBackoff p f).1 = Except.error e := he
  rcases hpair : retryWithBackoff p f with ⟨res, n⟩
  rw [hpair] at hwb
  simp only at hwb
  subst hwb
  simp only [dispatcherExecute, hph]
  rw [if_neg (by simp), if_neg (by simp), hpair]
  simp only
  rw [if_neg (by omega)]

theorem dispatch_closed_fail_ge (cfg : BreakerConfig) (p : RetryPolicy)
    (f : Nat → Except PyError Nat) (now : Nat) (st : CircuitState)
    (hmax : 1 ≤ p.max_attempts) (hph : st.phase = CircuitPhase.closed)
    (hf : alwaysFails f) (hth : cfg.failure_threshold ≤ st.failure_count + 1) :
    (dispatcherExecute cfg p f now st).state
      = ⟨CircuitPhase.opened, st.failure_count + 1, now⟩ := by
  obtain ⟨e, he⟩ := retryRun_all_fail p f p.max_attempts 0 (fun i _ => hf i) hmax
  have hwb : (retryWithBackoff p f).1 = Except.error e := he
  rcases hpair : retryWithBackoff p f with ⟨res, n⟩
  rw [hpair] at hwb
  simp only at hwb
  subst hwb
  simp only [dispatcherExecute, hph]
  rw [if_neg (by simp), if_neg (by simp), hpair]
  simp only
  rw [if_pos hth]

theorem dispatch_closed_no_halfopen (cfg : BreakerConfig) (p : RetryPolicy)
    (f : Nat → Except PyError Nat) (now : Nat) (st : CircuitState)
    (hph : st.phase = CircuitPhase.closed) :
    CircuitPhase.halfOpen ∉ (dispatcherExecute cfg p f now st).visited := by
  simp only [dispatcherExecute, hph]
  rw [if_neg (by simp), if_neg (by simp)]
  rcases hpair : retryWithBackoff p f with ⟨res, n⟩
  cases res with
  | ok v => simp
  | error e =>
      simp only
      split <;> simp

theorem runCalls_closed (cfg : BreakerConfig) (p : RetryPolicy)
    (hmax : 1 ≤ p.max_attempts) :
    ∀ (calls : List (Nat × (Nat → Except PyError Nat))) (st : CircuitState),
      st.phase = CircuitPhase.closed →
      (∀ c ∈ calls, alwaysFails c.2) →
      st.failure_count + calls.length < cfg.failure_threshold →
      runCalls cfg p calls st
        = ⟨CircuitPhase.closed, st.failure_count + calls.length, st.opened_at⟩ := by
  intro calls
  induction calls with
  | nil =>
      intro st hph hf hlen
      obtain ⟨ph, fc, oa⟩ := st
      simp_all [runCalls]
  | cons c rest ih =>
      intro st hph hf hlen
      have hstep := dispatch_closed_fail_lt cfg p c.2 c.1 st hmax hph
        (hf c (by simp)) (by simp at hlen; omega)
      simp only [runCalls, List.foldl_cons] at ih ⊢
      rw [hstep]
      have hrest := ih ⟨CircuitPhase.closed, st.failure_count + 1, st.opened_at⟩ rfl
        (fun c' hc' => hf c' (by simp [hc'])) (by simp at hlen ⊢; omega)
      rw [hrest]
      simp at hlen ⊢
      omega

/-- Claim C4: the circuit breaker lifecycle — (i) while Open and before
`opened_at + recovery_timeout` a call fails with CircuitOpen, performs no
attempt and leaves the state untouched; (ii) from a fresh Closed state,
exactly `failure_threshold` consecutive failed dispatches open the
circuit, stamping `opened_at` with the last call's time; (iii) the first
call at or past the recovery deadline runs the HalfOpen trial (it visits
HalfOpen, performs at least one attempt, and ends Closed on success or
re-Open with `opened_at` refreshed on failure); (iv) after that trial, a
following call is never a second HalfOpen trial — it is blocked without
an attempt while re-Open before the refreshed deadline, and never visits
HalfOpen from Closed; (v) every call's phase trajectory follows only the
edges Closed to Open, Open to HalfOpen, HalfOpen to Closed or Open. -/
theorem c4_circuit_breaker_lifecycle (cfg : BreakerConfig) (p : RetryPolicy)
    (hmax : 1 ≤ p.max_attempts) :
    (∀ f now st, st.phase = CircuitPhase.opened →
       now < st.opened_at + cfg.recovery_timeout →
       dispatcherExecute cfg p f now st
         = ⟨DispatchResult.circuitOpen, st, 0, [CircuitPhase.opened]⟩) ∧
    (∀ (calls : List (Nat × (Nat → Except PyError Nat))) t g o,
       calls.length + 1 = cfg.failure_threshold →
       (∀ c ∈ calls, alwaysFails c.2) → alwaysFails g →
       runCalls cfg p (calls ++ [(t, g)]) ⟨CircuitPhase.closed, 0, o⟩
         = ⟨CircuitPhase.opened, cfg.failure_threshold, t⟩) ∧
    (∀ f now st, st.phase = CircuitPhase.opened →
       st.opened_at + cfg.recovery_timeout ≤ now →
       (dispatcherExecute cfg p f now st).visited.take 2
           = [CircuitPhase.opened, CircuitPhase.halfOpen] ∧
       1 ≤ (dispatcherExecute cfg p f now st).attempts ∧
       ((dispatcherExecute cfg p f now st).state
           = ⟨CircuitPhase.closed, 0, st.opened_at⟩ ∨
        (dispatcherExecute cfg p f now st).state.phase = CircuitPhase.opened ∧
        (dispatcherExecute cfg p f now st).state.opened_at = now)) ∧
    (∀ f now st f' now', st.phase = CircuitPhase.opened →
       st.opened_at + cfg.recovery_timeout ≤ now →
       ((dispatcherExecute cfg p f now st).state.phase = CircuitPhase.opened →
          now' < (dispatcherExecute cfg p f now st).state.opened_at
              + cfg.recovery_timeout →
          (dispatcherExecute cfg p f' now'
              (dispatcherExecute cfg p f now st).state).attempts = 0) ∧
       ((dispatcherExecute cfg p f now st).state.phase = CircuitPhase.closed →
          CircuitPhase.halfOpen ∉
            (dispatcherExecute cfg p f' now'
              (dispatcherExecute cfg p f now st).state).visited)) ∧
    (∀ f now st,
       List.Chain' allowedEdge (dispatcherExecute cfg p f now st).visited ∧
       (dispatcherExecute cfg p f now st).visited.head? = some st.phase ∧
       (dispatcherExecute cfg p f now st).visited.getLast?
         = some (dispatcherExecute cfg p f now st).state.phase) := by
  have htrial : ∀ f now st, st.phase = CircuitPhase.opened →
      st.opened_at + cfg.recovery_timeout ≤ now →
      (∃ v n, retryWithBackoff p f = (Except.ok v, n) ∧
        dispatcherExecute cfg p f now st
          = ⟨DispatchResult.ok v, ⟨CircuitPhase.closed, 0, st.opened_at⟩, n,
             [CircuitPhase.opened, CircuitPhase.halfOpen, CircuitPhase.closed]⟩) ∨
      (∃ e n, retryWithBackoff p f = (Except.error e, n) ∧
        dispatcherExecute cfg p f now st
          = ⟨DispatchResult.failed e,
             ⟨CircuitPhase.opened, st.failure_count + 1, now⟩, n,
             [CircuitPhase.opened, CircuitPhase.halfOpen, CircuitPhase.opened]⟩) := by
    intro f now st h1 h2
    rcases hpair : retryWithBackoff p f with ⟨res, n⟩
    cases res with
    | ok v =>
        left
        refine ⟨v, n, rfl, ?_⟩
        simp only [dispatcherExecute]
        rw [if_neg (fun hc => absurd hc.2 (by omega)), if_pos h1, hpair]
    | error e =>
        right
        refine ⟨e, n, rfl, ?_⟩
        simp only [dispatcherExecute]
        rw [if_neg (fun hc => absurd hc.2 (by omega)), if_pos h1, hpair]
  have hatt : ∀ f, 1 ≤ (retryWithBackoff p f).2 :=
    fun f => retryRun_attempts_ge p f p.max_attempts 0 hmax
  refine ⟨?_, ?_, ?_, ?_, ?_⟩
  · intro f now st h1 h2
    exact dispatch_open_blocked cfg p f now st h1 h2
  · intro calls t g o hlen hall hg
    simp only [runCalls, List.foldl_append, List.foldl_cons, List.foldl_nil]
    have h1 := runCalls_closed cfg p hmax calls ⟨CircuitPhase.closed, 0, o⟩ rfl hall
      (by simp; omega)
    simp only [runCalls] at h1
    rw [h1]
    have h2 := dispatch_closed_fail_ge cfg p g t
      ⟨CircuitPhase.closed, 0 + calls.length, o⟩ hmax rfl hg (by simp; omega)
    rw [h2]
    simp
    omega
  · intro f now st h1 h2
    rcases htrial f now st h1 h2 with ⟨v, n, hpair, hrun⟩ | ⟨e, n, hpair, hrun⟩
    · rw [hrun]
      refine ⟨rfl, ?_, Or.inl rfl⟩
      have := hatt f
      rw [hpair] at this
      exact this
    · rw [hrun]
      refine ⟨rfl, ?_, Or.inr ⟨rfl, rfl⟩⟩
      have := hatt f
      rw [hpair] at this
      exact this
  · intro f now st f' now' h1 h2
    rcases htrial f now st h1 h2 with ⟨v, n, hpair, hrun⟩ | ⟨e, n, hpair, hrun⟩
    · rw [hrun]
      constructor
      · intro h; simp at h
      · intro _
        exact dispatch_closed_no_halfopen cfg p f' now' _ rfl
    · rw [hrun]
      constructor
      · intro _ hlt
        rw [dispatch_open_blocked cfg p f' now' _ rfl hlt]
      · intro h; simp at h
  · intro f now st
    by_cases h1 : st.phase = CircuitPhase.opened
    · by_cases h2 : now < st.opened_at + cfg.recovery_timeout
      · rw [dispatch_open_blocked cfg p f now st h1 h2]
        exact ⟨by simp, by simp [h1], by simp [h1]⟩
      · rcases htrial f now st h1 (by omega) with ⟨v, n, hpair, hrun⟩ | ⟨e, n, hpair, hrun⟩
        · rw [hrun]
          exact ⟨by simp [List.chain'_cons, allowedEdge], by simp [h1], by simp⟩
        · rw [hrun]
          exact ⟨by simp [List.chain'_cons, allowedEdge], by simp [h1], by simp⟩
    · have hne : ¬(st.phase = CircuitPhase.opened ∧
          now < st.opened_at + cfg.recovery_timeout) := fun h => h1 h.1
      simp only [dispatcherExecute]
      rw [if_neg hne, if_neg h1]
      rcases hpair : retryWithBackoff p f with ⟨res, n⟩
      cases res with
      | ok v => exact ⟨by simp, by simp, by simp⟩
      | error e =>
          simp only
          split
          · refine ⟨?_, by simp, by simp⟩
            cases hph : st.phase with
            | closed => simp [List.chain'_cons, allowedEdge]
            | opened => exact absurd hph h1
            | halfOpen => simp [List.chain'_cons, allowedEdge]
          · exact ⟨by simp, by simp, by simp⟩

/-- Witness for C4: a threshold-2, 30-second-recovery breaker driven by
two failing calls at times 0 and 5, a blocked call at time 20, and the
half-open trial at time 40. -/
theorem c4_witness :
    runCalls ⟨2, 30⟩ ⟨2, 1, 60, 2, true⟩ [(0, sampleFailOracle), (5, sampleFailOracle)]
        ⟨CircuitPhase.closed, 0, 0⟩ = ⟨CircuitPhase.opened, 2, 5⟩ ∧
    dispatcherExecute ⟨2, 30⟩ ⟨2, 1, 60, 2, true⟩ sampleFailOracle 20
        ⟨CircuitPhase.opened, 2, 5⟩
      = ⟨DispatchResult.circuitOpen, ⟨CircuitPhase.opened, 2, 5⟩, 0,
         [CircuitPhase.opened]⟩ ∧
    (dispatcherExecute ⟨2, 30⟩ ⟨2, 1, 60, 2, true⟩ sampleMixOracle 40
        ⟨CircuitPhase.opened, 2, 5⟩).visited.take 2
      = [CircuitPhase.opened, CircuitPhase.halfOpen] := by
  have h := c4_circuit_breaker_lifecycle ⟨2, 30⟩ ⟨2, 1, 60, 2, true⟩ (by decide)
  refine ⟨?_, ?_, ?_⟩
  · exact h.2.1 [(0, sampleFailOracle)] 5 sampleFailOracle 0 (by decide)
      (by
        intro c hc
        simp at hc
        subst hc
        exact fun i => ⟨.connectionError "Connection failed", rfl⟩)
      (fun i => ⟨.connectionError "Connection failed", rfl⟩)
  · exact h.1 sampleFailOracle 20 ⟨CircuitPhase.opened, 2, 5⟩ rfl (by decide)
  · exact (h.2.2.1 sampleMixOracle 40 ⟨CircuitPhase.opened, 2, 5⟩ rfl (by decide)).1

end Gateway
